import Mathlib

/-!
# whatsapp_message_sender: session lifecycle of `main.go`

A shallow embedding of the HTTP handlers of `src/main.go` (`Scan`, `Kirim`,
`LogoutAndDeleteSession`) and of the session-creating function `panggilWa`.

* The two package-level variables `client` and `container` are fields of `State`.
* Every call into a collaborator (the device store, the protocol client, the QR
  renderer) is appended to `State.trace`, in program order.
* What a collaborator answers is an input of the handler (`ScanEnv`, `KirimEnv`,
  `LogoutEnv`); the handlers are total functions of the state and of these answers.
* Writes to standard output (`fmt.Println`) are not modelled.
-/

namespace WaSender

/-! ## Data model -/

/-- Device identity handed out by the store. `ID` is `none` exactly when Go's
`client.Store.ID == nil`, i.e. the device has not been paired. -/
structure Device where
  ID : Option String
  deriving DecidableEq, Repr

/-- The `*sqlstore.Container`; `GetFirstDevice` is what `container.GetFirstDevice()`
returns (an error text or a device). -/
structure Container where
  GetFirstDevice : Except String Device

/-- The `*whatsmeow.Client` built by `whatsmeow.NewClient(deviceStore, clientLog)`.
`serial` numbers the allocations, so that two handles are equal only if they come
from the same `NewClient` call. -/
structure Client where
  Store : Device
  serial : Nat
  deriving DecidableEq, Repr

/-- One item of the channel returned by `client.GetQRChannel`. -/
structure QRChannelItem where
  Event : String
  Code : String
  deriving DecidableEq, Repr

/-- Calls into the collaborators, as recorded in the trace. -/
inductive Call where
  | GetFirstDevice
  | NewClient (deviceStore : Device)
  | AddEventHandler
  | GetQRChannel
  | Connect
  | Encode (code : String)
  | SendMessage (targetJID : String) (conversation : String)
  | Logout
  | Disconnect
  deriving DecidableEq, Repr

/-- Process-wide state: the globals `client` and `container`, and the history of
collaborator calls. -/
structure State where
  client : Option Client
  container : Option Container
  trace : List Call

/-- Append one collaborator call to the history. -/
def State.log (s : State) (c : Call) : State :=
  { s with trace := s.trace ++ [c] }

/-- Is this call a `whatsmeow.NewClient`? -/
def Call.isNewClient : Call → Bool
  | .NewClient _ => true
  | _ => false

/-- Number of protocol clients created so far. -/
def State.created (s : State) : Nat :=
  (s.trace.filter Call.isNewClient).length

/-- The `User` struct decoded from the request body of `/api/kirim`. -/
structure User where
  MobileNo : String
  TextMessage : String
  deriving DecidableEq, Repr

/-- The value returned by a successful `client.SendMessage`; only the
provider-assigned message identifier is kept. -/
structure SendResponse where
  ID : String
  deriving DecidableEq, Repr

/-- What is written to the `http.ResponseWriter`.
`text msg` is the body of `http.Error(w, msg, code)`;
`json fields data` is the encoded envelope with the entries of `"meta"` and the
optional `"data"`; `html uri` is `scanner.html` executed on `template.URL(uri)`;
`htmlThenText uri msg` is the part of that page written before `Execute` failed,
followed by the text that a later `http.Error(w, msg, _)` appends. -/
inductive Body where
  | text (msg : String)
  | json (fields : List (String × String)) (data : Option SendResponse)
  | html (uri : String)
  | htmlThenText (uri : String) (msg : String)
  deriving DecidableEq, Repr

/-- An HTTP response: status code and body. -/
structure Response where
  status : Nat
  body : Body
  deriving DecidableEq, Repr

/-- Outcome of a handler invocation: a response was sent, the handler never
returns (it waits on a channel), or it panicked (`template.Must`). -/
inductive Reply where
  | sent (r : Response)
  | hang
  | abort
  deriving DecidableEq, Repr

/-! ## `base64.StdEncoding.EncodeToString` -/

/-- The alphabet of `base64.StdEncoding`. -/
def encodeStd : List Char :=
  "ABCDEFGHIJKLMNOPQRSTUVWXYZabcdefghijklmnopqrstuvwxyz0123456789+/".toList

/-- The alphabet character of a 6-bit value. -/
def b64Char (i : Nat) : Char :=
  encodeStd.getD i 'A'

/-- Standard base64 with `=` padding, three input bytes to four characters. -/
def encodeChars : List UInt8 → List Char
  | [] => []
  | [a] =>
    [b64Char (a.toNat / 4), b64Char (a.toNat % 4 * 16), '=', '=']
  | [a, b] =>
    [b64Char (a.toNat / 4), b64Char (a.toNat % 4 * 16 + b.toNat / 16),
     b64Char (b.toNat % 16 * 4), '=']
  | a :: b :: c :: rest =>
    b64Char (a.toNat / 4) :: b64Char (a.toNat % 4 * 16 + b.toNat / 16) ::
    b64Char (b.toNat % 16 * 4 + c.toNat / 64) :: b64Char (c.toNat % 64) ::
    encodeChars rest

/-- Go's `base64.StdEncoding.EncodeToString`. -/
def EncodeToString (src : List UInt8) : String :=
  String.mk (encodeChars src)

/-! ## Collaborator answers -/

/-- What happens to `template.Must(template.ParseFiles("scanner.html"))` and
`tmpl.Execute`: parsing panics; `Execute` fails before any byte reached the
response; `Execute` fails after part of the page was written (the status line 200
is then already sent); or `Execute` succeeds. -/
inductive TemplateOutcome where
  | parsePanic
  | executeErr
  | executeErrAfterOutput
  | executed
  deriving DecidableEq, Repr

/-- Answers of the collaborators during one `Scan` request.
* `Connect`: the error of `client.Connect()`, `none` for `nil`;
* `qrChan`: the channel of `client.GetQRChannel` as the finite sequence of items
  it delivers before it is closed; `none` is the nil channel (the error of
  `GetQRChannel` is discarded by the code);
* `Encode`: `qrcode.Encode(code, qrcode.Medium, 256)`;
* `signal`: whether `os.Interrupt` or `SIGTERM` is ever delivered to the process;
* `tmpl`: outcome of parsing and executing `scanner.html`. -/
structure ScanEnv where
  Connect : Option String
  qrChan : Option (List QRChannelItem)
  Encode : String → Except String (List UInt8)
  signal : Bool
  tmpl : TemplateOutcome

/-- The request body of `/api/kirim` after `io.ReadAll` and `json.Unmarshal`. -/
inductive RequestBody where
  | unreadable
  | malformed
  | parsed (data : User)
  deriving DecidableEq, Repr

/-- Answers of the collaborators during one `Kirim` request: `types.ParseJID`
(its error is discarded by the code) and `client.SendMessage`. -/
structure KirimEnv where
  ParseJID : String → String
  SendMessage : String → String → Except String SendResponse

/-- Answer of `client.Logout()`: the error, `none` for `nil`. -/
structure LogoutEnv where
  Logout : Option String

/-! ## `panggilWa` -/

/-- Result of `panggilWa`: `hasil` is the returned string (`none` when the call
never returns), `unread` the items still in the QR channel, `state` the globals
and trace afterwards. -/
structure PanggilResult where
  hasil : Option String
  unread : List QRChannelItem
  state : State

/-- The loop `for evt := range qrChan` (lines 62-75). The first component is
`some v` when the loop body executed `return v`, `none` when the channel was
closed and the loop ended; the second component is what was not received. -/
def rangeQrChan (Encode : String → Except String (List UInt8)) :
    List QRChannelItem → State → Option String × List QRChannelItem × State
  | [], s => (none, [], s)
  | evt :: rest, s =>
    if evt.Event = "code" then
      match Encode evt.Code with
      | .error _ => (some "", rest, s.log (.Encode evt.Code))
      | .ok png =>
        (some ("data:image/png;base64," ++ EncodeToString png), rest,
          s.log (.Encode evt.Code))
    else rangeQrChan Encode rest s

/-- Lines 84-89: wait for a termination signal, then disconnect and return "0".
Without a signal the receive `<-c` never completes. -/
def awaitSignal (signal : Bool) (unread : List QRChannelItem) (s : State) :
    PanggilResult :=
  if signal then ⟨some "0", unread, s.log .Disconnect⟩ else ⟨none, unread, s⟩

/-- The function `panggilWa(container)` (lines 38-90). -/
def panggilWa (env : ScanEnv) (container : Option Container) (s : State) :
    PanggilResult :=
  match container with
  | none => ⟨some "", [], s⟩
  | some ct =>
    let s1 := s.log .GetFirstDevice
    match ct.GetFirstDevice with
    | .error _ => ⟨some "", [], s1⟩
    | .ok deviceStore =>
      let c : Client := ⟨deviceStore, s1.created⟩
      let s2 : State :=
        { (s1.log (.NewClient deviceStore)).log .AddEventHandler with client := some c }
      match c.Store.ID with
      | none =>
        let s3 := (s2.log .GetQRChannel).log .Connect
        match env.Connect with
        | some _ => ⟨some "", env.qrChan.getD [], s3⟩
        | none =>
          match env.qrChan with
          | none => ⟨none, [], s3⟩
          | some evts =>
            match rangeQrChan env.Encode evts s3 with
            | (some v, rest, s4) => ⟨some v, rest, s4⟩
            | (none, rest, s4) => awaitSignal env.signal rest s4
      | some _ =>
        let s3 := s2.log .Connect
        match env.Connect with
        | some _ => ⟨some "", [], s3⟩
        | none => awaitSignal env.signal [] s3

/-! ## HTTP handlers -/

/-- The builtin `http.Error(w, msg, code)`. -/
def httpError (msg : String) (code : Nat) : Reply :=
  .sent ⟨code, .text msg⟩

/-- The handler `Scan` (lines 106-122); `GetDb()` reads the global `container`.
When `Execute` fails after output was written, the `WriteHeader(500)` inside
`http.Error` comes too late: the reply keeps status 200 and the message is appended
to the partial page. -/
def Scan (env : ScanEnv) (s : State) : Reply × State :=
  match s.client with
  | none =>
    let r := panggilWa env s.container s
    match r.hasil with
    | none => (.hang, r.state)
    | some hasil =>
      if hasil = "" then
        (httpError "Failed to generate QR code" 500, r.state)
      else
        match env.tmpl with
        | .parsePanic => (.abort, r.state)
        | .executeErr => (httpError "Unable to render template" 500, r.state)
        | .executeErrAfterOutput =>
          (.sent ⟨200, .htmlThenText hasil "Unable to render template"⟩, r.state)
        | .executed => (.sent ⟨200, .html hasil⟩, r.state)
  | some _ => (httpError "Client already logged in" 200, s)

/-- The handler `Kirim` (lines 129-169). -/
def Kirim (env : KirimEnv) (req : RequestBody) (s : State) : Reply × State :=
  match req with
  | .unreadable => (httpError "Failed to read body" 400, s)
  | .malformed => (httpError "Invalid JSON" 400, s)
  | .parsed data =>
    let targetJID := env.ParseJID (data.MobileNo ++ "@s.whatsapp.net")
    match s.client with
    | some _ =>
      let s1 := s.log (.SendMessage targetJID data.TextMessage)
      match env.SendMessage targetJID data.TextMessage with
      | .error err =>
        (.sent ⟨200, .json [("status", "error"), ("message", err)] none⟩, s1)
      | .ok sendMessage =>
        (.sent ⟨200, .json [("status", "success")] (some sendMessage)⟩, s1)
    | none => (httpError "Client not initialized" 500, s)

/-- The handler `LogoutAndDeleteSession` (lines 171-194). -/
def LogoutAndDeleteSession (env : LogoutEnv) (s : State) : Reply × State :=
  match s.client with
  | none => (httpError "No active client session" 400, s)
  | some _ =>
    let s1 := s.log .Logout
    match env.Logout with
    | some err =>
      (.sent ⟨200, .json [("status", "error"),
        ("message", "Failed to logout: " ++ err)] none⟩, s1)
    | none =>
      let s2 := s1.log .Disconnect
      (.sent ⟨200, .json [("status", "success"),
        ("message", "Successfully logged out and session deleted.")] none⟩, s2)

/-- Successive `Scan` requests, one per element of `envs`. -/
def scanMany (envs : List ScanEnv) (s : State) : State :=
  envs.foldl (fun st env => (Scan env st).2) s

/-! ## Requests running concurrently

`net/http` runs every request in its own goroutine and `main.go` takes no lock.
A request to `/scan` is split at the only place where it reads the shared handle:
the test `client == nil` of line 107. What follows the test (lines 108-121,
with the assignment of line 51 inside `panggilWa`) runs on the outcome of the test,
whatever the handle has become in between. A schedule lets the requests take
turns, one such move at a time; the program admits finer interleavings as well,
which are not needed for what is stated below. -/

/-- Is this call a `client.Connect`? -/
def Call.isConnect : Call → Bool
  | .Connect => true
  | _ => false

/-- Number of `Connect` attempts made so far. -/
def State.connects (s : State) : Nat :=
  (s.trace.filter Call.isConnect).length

/-- The test `client == nil` of line 107. -/
def scanCheck (s : State) : Bool :=
  s.client.isNone

/-- Lines 108-121 of `Scan`, run after the test of line 107 gave `sawNil`. -/
def scanAct (env : ScanEnv) (sawNil : Bool) (s : State) : Reply × State :=
  if sawNil then
    let r := panggilWa env s.container s
    match r.hasil with
    | none => (.hang, r.state)
    | some hasil =>
      if hasil = "" then
        (httpError "Failed to generate QR code" 500, r.state)
      else
        match env.tmpl with
        | .parsePanic => (.abort, r.state)
        | .executeErr => (httpError "Unable to render template" 500, r.state)
        | .executeErrAfterOutput =>
          (.sent ⟨200, .htmlThenText hasil "Unable to render template"⟩, r.state)
        | .executed => (.sent ⟨200, .html hasil⟩, r.state)
  else (httpError "Client already logged in" 200, s)

/-- Where one `/scan` request stands: before line 107, after line 107 with the
outcome of the test, or finished with its reply. -/
inductive Pc where
  | atCheck
  | atBody (sawNil : Bool)
  | finished (r : Reply)
  deriving DecidableEq, Repr

/-- The shared state together with the position of every request in flight. -/
structure Config where
  state : State
  pcs : List Pc

/-- The configuration in which `n` requests have arrived and none has run yet. -/
def Config.init (s : State) (n : Nat) : Config :=
  ⟨s, List.replicate n .atCheck⟩

/-- Request `i` makes its next move: the test of line 107, or the rest of the
handler. A finished or unknown request does nothing. -/
def stepRequest (envs : List ScanEnv) (i : Nat) (c : Config) : Config :=
  match c.pcs.get? i, envs.get? i with
  | some .atCheck, some _ =>
    { c with pcs := c.pcs.set i (.atBody (scanCheck c.state)) }
  | some (.atBody sawNil), some env =>
    { state := (scanAct env sawNil c.state).2,
      pcs := c.pcs.set i (.finished (scanAct env sawNil c.state).1) }
  | _, _ => c

/-- Run the requests in the order given by `sched`, a list of request numbers; each
occurrence of `i` lets request `i` make one move. -/
def runSchedule (envs : List ScanEnv) (sched : List Nat) (c : Config) : Config :=
  sched.foldl (fun cfg i => stepRequest envs i cfg) c

/-- The collaborator calls made between state `before` and state `after`. -/
def newCalls (before after : State) : List Call :=
  after.trace.drop before.trace.length

/-! ## Sample inputs -/

/-- A store whose first device has never been paired. -/
def unpairedStore : Container := ⟨.ok ⟨none⟩⟩

/-- A store whose first device is paired. -/
def pairedStore : Container := ⟨.ok ⟨some "6281200000000:7@s.whatsapp.net"⟩⟩

/-- Fresh process after `Dbase()`: no client yet, unpaired device in the store. -/
def stFresh : State := ⟨none, some unpairedStore, []⟩

/-- A process whose earlier `Scan` created and connected a client for a paired
device. -/
def stLive : State :=
  ⟨some ⟨⟨some "6281200000000:7@s.whatsapp.net"⟩, 0⟩, some pairedStore,
    [.GetFirstDevice, .NewClient ⟨some "6281200000000:7@s.whatsapp.net"⟩,
      .AddEventHandler, .Connect]⟩

/-- A renderer that answers with three bytes for every code. -/
def sampleEncode : String → Except String (List UInt8) :=
  fun _ => .ok [137, 80, 78]

/-- `Connect` succeeds, the QR channel is closed at once, a signal arrives. -/
def envClosed : ScanEnv := ⟨none, some [], sampleEncode, true, .executed⟩

/-- `Connect` succeeds, the QR channel delivers two lifecycle items and no code
before it is closed, and a termination signal arrives during the wait. -/
def envNoCode : ScanEnv :=
  ⟨none, some [⟨"err-client-outdated", ""⟩, ⟨"timeout", ""⟩], sampleEncode, true,
    .executed⟩

/-- As `envNoCode`, but no termination signal is ever delivered. -/
def envNoCodeNoSignal : ScanEnv :=
  ⟨none, some [⟨"err-client-outdated", ""⟩, ⟨"timeout", ""⟩], sampleEncode, false,
    .executed⟩

/-- `Connect` fails. -/
def envDialFails : ScanEnv :=
  ⟨some "websocket dial failed", some [], sampleEncode, false, .executed⟩

/-- `Connect` succeeds and the channel delivers a lifecycle item, a code, and a
second code. -/
def envCodes : ScanEnv :=
  ⟨none, some [⟨"err-client-outdated", ""⟩, ⟨"code", "2@abc"⟩, ⟨"code", "2@def"⟩],
    sampleEncode, false, .executed⟩

/-- A protocol client whose `SendMessage` always succeeds with identifier `3EB0`;
`ParseJID` is the identity on the text. -/
def envSendOk : KirimEnv := ⟨fun j => j, fun _ _ => .ok ⟨"3EB0"⟩⟩

/-- A protocol client whose `SendMessage` always fails because the websocket is not
connected; `ParseJID` is the identity on the text. -/
def envSendFails : KirimEnv :=
  ⟨fun j => j, fun _ _ => .error "websocket not connected"⟩

/-! ## Lemmas on the QR loop and on the trace -/

/-- When the trace grew by `calls`, these are the new calls. -/
theorem newCalls_append (s t : State) (calls : List Call)
    (h : t.trace = s.trace ++ calls) : newCalls s t = calls := by
  simp [newCalls, h]

/-- A stream without a code item is read to its end and the loop finishes. -/
theorem rangeQrChan_no_code (E : String → Except String (List UInt8))
    (evts : List QRChannelItem) (s : State)
    (h : ∀ e ∈ evts, e.Event ≠ "code") :
    rangeQrChan E evts s = (none, [], s) := by
  induction evts with
  | nil => rfl
  | cons x xs ih =>
    have hx : x.Event ≠ "code" := h x (List.mem_cons_self _ _)
    have hxs : ∀ e ∈ xs, e.Event ≠ "code" := fun e he => h e (List.mem_cons_of_mem _ he)
    simp [rangeQrChan, hx, ih hxs]

/-- Items before the first code do not influence the loop. -/
theorem rangeQrChan_skip (E : String → Except String (List UInt8))
    (pre : List QRChannelItem) (rest : List QRChannelItem) (s : State)
    (h : ∀ e ∈ pre, e.Event ≠ "code") :
    rangeQrChan E (pre ++ rest) s = rangeQrChan E rest s := by
  induction pre with
  | nil => rfl
  | cons x xs ih =>
    have hx : x.Event ≠ "code" := h x (List.mem_cons_self _ _)
    have hxs : ∀ e ∈ xs, e.Event ≠ "code" := fun e he => h e (List.mem_cons_of_mem _ he)
    simp [rangeQrChan, hx, ih hxs]

/-- A stream with a code item splits at its first code item. -/
theorem first_code_split (evts : List QRChannelItem)
    (h : ∃ e ∈ evts, e.Event = "code") :
    ∃ pre e post, evts = pre ++ e :: post ∧ (∀ x ∈ pre, x.Event ≠ "code") ∧
      e.Event = "code" := by
  induction evts with
  | nil => obtain ⟨e, he, _⟩ := h; cases he
  | cons x xs ih =>
    by_cases hx : x.Event = "code"
    · exact ⟨[], x, xs, rfl, by simp, hx⟩
    · obtain ⟨e, he, hec⟩ := h
      have hmem : e ∈ xs := by
        rcases List.mem_cons.mp he with rfl | h'
        · exact absurd hec hx
        · exact h'
      obtain ⟨pre, e', post, hsplit, hpre, he'⟩ := ih ⟨e, hmem, hec⟩
      refine ⟨x :: pre, e', post, by simp [hsplit], ?_, he'⟩
      intro y hy
      rcases List.mem_cons.mp hy with rfl | h'
      · exact hx
      · exact hpre y h'

/-- The loop only appends to the trace; the globals are untouched. -/
theorem rangeQrChan_trace (E : String → Except String (List UInt8))
    (evts : List QRChannelItem) (s : State) :
    ∃ calls, (rangeQrChan E evts s).2.2 = { s with trace := s.trace ++ calls } := by
  induction evts with
  | nil => exact ⟨[], by simp [rangeQrChan]⟩
  | cons x xs ih =>
    by_cases hx : x.Event = "code"
    · cases hE : E x.Code with
      | error e => exact ⟨[.Encode x.Code], by simp [rangeQrChan, hx, hE, State.log]⟩
      | ok png => exact ⟨[.Encode x.Code], by simp [rangeQrChan, hx, hE, State.log]⟩
    · obtain ⟨calls, hc⟩ := ih
      exact ⟨calls, by simp [rangeQrChan, hx, hc]⟩

/-- With a non-nil container the first collaborator call of `panggilWa` is
`GetFirstDevice`. -/
theorem panggilWa_first_call (env : ScanEnv) (ct : Container) (s : State) :
    ∃ rest, (panggilWa env (some ct) s).state.trace =
      s.trace ++ Call.GetFirstDevice :: rest := by
  cases hd : ct.GetFirstDevice with
  | error e => exact ⟨[], by simp [panggilWa, hd, State.log]⟩
  | ok d =>
    cases hid : d.ID with
    | some j =>
      cases hc : env.Connect with
      | some e => exact ⟨_, by simp [panggilWa, hd, hid, hc, State.log] ; rfl⟩
      | none =>
        cases hs : env.signal <;>
          exact ⟨_, by simp [panggilWa, hd, hid, hc, hs, awaitSignal, State.log] ; rfl⟩
    | none =>
      cases hc : env.Connect with
      | some e => exact ⟨_, by simp [panggilWa, hd, hid, hc, State.log] ; rfl⟩
      | none =>
        cases hq : env.qrChan with
        | none => exact ⟨_, by simp [panggilWa, hd, hid, hc, hq, State.log] ; rfl⟩
        | some evts =>
          simp only [panggilWa, hd, hid, hc, hq]
          generalize hs3 : (State.log (State.log _ .GetQRChannel) .Connect) = s3
          have ht3 : s3.trace = s.trace ++ [.GetFirstDevice, .NewClient d,
              .AddEventHandler, .GetQRChannel, .Connect] := by
            subst hs3; simp [State.log]
          obtain ⟨calls, hcalls⟩ := rangeQrChan_trace env.Encode evts s3
          rcases hr : rangeQrChan env.Encode evts s3 with ⟨v, rest, s4⟩
          rw [hr] at hcalls
          simp only at hcalls
          subst hcalls
          cases v with
          | some v => exact ⟨_, by simp [ht3] ; rfl⟩
          | none =>
            cases hs : env.signal <;>
              exact ⟨_, by simp [awaitSignal, State.log, ht3] ; rfl⟩

/-! ## Termination of the session (`POST /api/keluarwa`) -/

/-- C1, as stated, fails: with a live client and a `Logout` that returns an error,
`LogoutAndDeleteSession` reports the error and returns without calling
`Disconnect`. -/
theorem C1_counterexample_logout_error_skips_disconnect :
    stLive.client ≠ none ∧
    Call.Disconnect ∉
      newCalls stLive (LogoutAndDeleteSession ⟨some "not logged in"⟩ stLive).2 ∧
    (LogoutAndDeleteSession ⟨some "not logged in"⟩ stLive).1 =
      .sent ⟨200, .json [("status", "error"),
        ("message", "Failed to logout: not logged in")] none⟩ := by
  decide

/-- C1, amended: with a client session present, `LogoutAndDeleteSession` always
calls `Logout` first; when `Logout` succeeds it then calls `Disconnect` and answers
with the success envelope; when `Logout` returns an error it makes no further
collaborator call (no `Disconnect`) and reports the error to the caller as
`Failed to logout: ` followed by the error text. -/
theorem C1_disconnect_follows_successful_logout (env : LogoutEnv) (s : State)
    (c : Client) (h : s.client = some c) :
    (env.Logout = none →
      (LogoutAndDeleteSession env s).2.trace = s.trace ++ [.Logout, .Disconnect] ∧
      (LogoutAndDeleteSession env s).1 =
        .sent ⟨200, .json [("status", "success"),
          ("message", "Successfully logged out and session deleted.")] none⟩) ∧
    (∀ err, env.Logout = some err →
      (LogoutAndDeleteSession env s).2.trace = s.trace ++ [.Logout] ∧
      Call.Disconnect ∉ newCalls s (LogoutAndDeleteSession env s).2 ∧
      (LogoutAndDeleteSession env s).1 =
        .sent ⟨200, .json [("status", "error"),
          ("message", "Failed to logout: " ++ err)] none⟩) := by
  constructor
  · intro hl
    simp [LogoutAndDeleteSession, h, hl, State.log]
  · intro err hl
    have ht : (LogoutAndDeleteSession env s).2.trace = s.trace ++ [.Logout] := by
      simp [LogoutAndDeleteSession, h, hl, State.log]
    refine ⟨ht, ?_, ?_⟩
    · rw [newCalls_append s _ _ ht]; decide
    · simp [LogoutAndDeleteSession, h, hl]

/-- C1, amended, at a live session: once with a failing and once with a succeeding
`Logout`. -/
theorem C1_disconnect_follows_successful_logout_witness :
    ((LogoutAndDeleteSession ⟨none⟩ stLive).2.trace =
        stLive.trace ++ [.Logout, .Disconnect] ∧
      (LogoutAndDeleteSession ⟨none⟩ stLive).1 =
        .sent ⟨200, .json [("status", "success"),
          ("message", "Successfully logged out and session deleted.")] none⟩) ∧
    ((LogoutAndDeleteSession ⟨some "timeout"⟩ stLive).2.trace =
        stLive.trace ++ [.Logout] ∧
      Call.Disconnect ∉
        newCalls stLive (LogoutAndDeleteSession ⟨some "timeout"⟩ stLive).2 ∧
      (LogoutAndDeleteSession ⟨some "timeout"⟩ stLive).1 =
        .sent ⟨200, .json [("status", "error"),
          ("message", "Failed to logout: " ++ "timeout")] none⟩) :=
  ⟨(C1_disconnect_follows_successful_logout ⟨none⟩ stLive _ rfl).1 rfl,
   (C1_disconnect_follows_successful_logout ⟨some "timeout"⟩ stLive _ rfl).2
     "timeout" rfl⟩

/-- C2, as stated, fails: after a terminate call whose `Logout` succeeds the
global client is still set; a `Kirim` issued next calls `SendMessage` and is not
answered with `Client not initialized`, and a `Scan` issued next is answered with
`Client already logged in` without any collaborator call. -/
theorem C2_counterexample_client_kept_after_logout :
    (LogoutAndDeleteSession ⟨none⟩ stLive).2.client ≠ none ∧
    newCalls (LogoutAndDeleteSession ⟨none⟩ stLive).2
      (Kirim envSendOk (.parsed ⟨"1555000111", "hi"⟩)
        (LogoutAndDeleteSession ⟨none⟩ stLive).2).2 =
      [.SendMessage "1555000111@s.whatsapp.net" "hi"] ∧
    (Kirim envSendOk (.parsed ⟨"1555000111", "hi"⟩)
        (LogoutAndDeleteSession ⟨none⟩ stLive).2).1 ≠
      httpError "Client not initialized" 500 ∧
    (Scan envCodes (LogoutAndDeleteSession ⟨none⟩ stLive).2).1 =
      httpError "Client already logged in" 200 ∧
    newCalls (LogoutAndDeleteSession ⟨none⟩ stLive).2
      (Scan envCodes (LogoutAndDeleteSession ⟨none⟩ stLive).2).2 = [] := by
  decide

/-- C2, amended: a terminate call whose `Logout` succeeds leaves the global client
handle exactly as it was (it is not cleared); a `Kirim` with a decoded body issued
immediately afterwards calls `SendMessage` once and is not answered with the
no-session error, and a `Scan` issued afterwards is answered with
`Client already logged in` and changes nothing. -/
theorem C2_logout_keeps_client_handle (env : LogoutEnv) (s : State) (c : Client)
    (h : s.client = some c) (hl : env.Logout = none) :
    (LogoutAndDeleteSession env s).2.client = some c ∧
    (∀ (kenv : KirimEnv) (data : User),
      (Kirim kenv (.parsed data) (LogoutAndDeleteSession env s).2).2.trace =
        (LogoutAndDeleteSession env s).2.trace ++
          [.SendMessage (kenv.ParseJID (data.MobileNo ++ "@s.whatsapp.net"))
            data.TextMessage] ∧
      (Kirim kenv (.parsed data) (LogoutAndDeleteSession env s).2).1 ≠
        httpError "Client not initialized" 500) ∧
    (∀ senv : ScanEnv,
      Scan senv (LogoutAndDeleteSession env s).2 =
        (httpError "Client already logged in" 200,
          (LogoutAndDeleteSession env s).2)) := by
  have hs : (LogoutAndDeleteSession env s).2 = (s.log .Logout).log .Disconnect := by
    simp [LogoutAndDeleteSession, h, hl]
  rw [hs]
  refine ⟨by simp [State.log, h], ?_, ?_⟩
  · intro kenv data
    constructor
    · cases hsend : kenv.SendMessage (kenv.ParseJID (data.MobileNo ++ "@s.whatsapp.net"))
        data.TextMessage <;> simp [Kirim, State.log, h, hsend]
    · cases hsend : kenv.SendMessage (kenv.ParseJID (data.MobileNo ++ "@s.whatsapp.net"))
        data.TextMessage <;> simp [Kirim, State.log, h, hsend, httpError]
  · intro senv
    simp [Scan, State.log, h]

/-- C2, amended, at a live session. -/
theorem C2_logout_keeps_client_handle_witness :
    (LogoutAndDeleteSession ⟨none⟩ stLive).2.client =
      some ⟨⟨some "6281200000000:7@s.whatsapp.net"⟩, 0⟩ ∧
    (∀ (kenv : KirimEnv) (data : User),
      (Kirim kenv (.parsed data) (LogoutAndDeleteSession ⟨none⟩ stLive).2).2.trace =
        (LogoutAndDeleteSession ⟨none⟩ stLive).2.trace ++
          [.SendMessage (kenv.ParseJID (data.MobileNo ++ "@s.whatsapp.net"))
            data.TextMessage] ∧
      (Kirim kenv (.parsed data) (LogoutAndDeleteSession ⟨none⟩ stLive).2).1 ≠
        httpError "Client not initialized" 500) ∧
    (∀ senv : ScanEnv,
      Scan senv (LogoutAndDeleteSession ⟨none⟩ stLive).2 =
        (httpError "Client already logged in" 200,
          (LogoutAndDeleteSession ⟨none⟩ stLive).2)) :=
  C2_logout_keeps_client_handle ⟨none⟩ stLive _ rfl rfl

/-! ## Sending (`POST /api/kirim`) -/

/-- C3, as stated, fails: with a live client, a decoded request whose `mobile_no`
and `text_message` are both empty is not rejected; `SendMessage` is called with the
JID parsed from `@s.whatsapp.net` and the empty text, and the provider result is
returned in a success envelope. -/
theorem C3_counterexample_empty_fields_are_sent :
    newCalls stLive (Kirim envSendOk (.parsed ⟨"", ""⟩) stLive).2 =
      [.SendMessage "@s.whatsapp.net" ""] ∧
    (Kirim envSendOk (.parsed ⟨"", ""⟩) stLive).1 =
      .sent ⟨200, .json [("status", "success")] (some ⟨"3EB0"⟩)⟩ := by
  decide

/-- C3, amended: `Kirim` does not validate the decoded fields. When a client
handle exists, a decoded request with an empty `mobile_no` makes exactly one
`SendMessage` call, to the JID parsed from `@s.whatsapp.net`, and a decoded request
with an empty `text_message` makes exactly one `SendMessage` call with the empty
text; in both cases the outcome of `SendMessage` is relayed (error envelope with
the error text, or success envelope with the provider result). Only when no client
handle exists is the request refused, with 500 `Client not initialized`, and no
collaborator called. -/
theorem C3_empty_fields_not_validated (kenv : KirimEnv) (s : State) :
    (s.client = none → ∀ data : User,
      Kirim kenv (.parsed data) s = (httpError "Client not initialized" 500, s)) ∧
    (∀ c, s.client = some c →
      (∀ text : String,
        (Kirim kenv (.parsed ⟨"", text⟩) s).2.trace =
          s.trace ++ [.SendMessage (kenv.ParseJID "@s.whatsapp.net") text] ∧
        (Kirim kenv (.parsed ⟨"", text⟩) s).1 =
          match kenv.SendMessage (kenv.ParseJID "@s.whatsapp.net") text with
          | .error err =>
            .sent ⟨200, .json [("status", "error"), ("message", err)] none⟩
          | .ok r => .sent ⟨200, .json [("status", "success")] (some r)⟩) ∧
      (∀ mobile : String,
        (Kirim kenv (.parsed ⟨mobile, ""⟩) s).2.trace =
          s.trace ++ [.SendMessage (kenv.ParseJID (mobile ++ "@s.whatsapp.net")) ""] ∧
        (Kirim kenv (.parsed ⟨mobile, ""⟩) s).1 =
          match kenv.SendMessage (kenv.ParseJID (mobile ++ "@s.whatsapp.net")) "" with
          | .error err =>
            .sent ⟨200, .json [("status", "error"), ("message", err)] none⟩
          | .ok r => .sent ⟨200, .json [("status", "success")] (some r)⟩)) := by
  constructor
  · intro h data
    simp [Kirim, h]
  · intro c h
    constructor
    · intro text
      have he : ("" : String) ++ "@s.whatsapp.net" = "@s.whatsapp.net" := by decide
      cases hsend : kenv.SendMessage (kenv.ParseJID "@s.whatsapp.net") text <;>
        simp [Kirim, State.log, h, he, hsend]
    · intro mobile
      cases hsend : kenv.SendMessage (kenv.ParseJID (mobile ++ "@s.whatsapp.net")) "" <;>
        simp [Kirim, State.log, h, hsend]

/-- C3, amended, on a live session: the empty `mobile_no` with text `hi`. -/
theorem C3_empty_fields_not_validated_witness :
    (Kirim envSendOk (.parsed ⟨"", "hi"⟩) stLive).2.trace =
      stLive.trace ++ [.SendMessage (envSendOk.ParseJID "@s.whatsapp.net") "hi"] ∧
    (Kirim envSendOk (.parsed ⟨"", "hi"⟩) stLive).1 =
      match envSendOk.SendMessage (envSendOk.ParseJID "@s.whatsapp.net") "hi" with
      | .error err => .sent ⟨200, .json [("status", "error"), ("message", err)] none⟩
      | .ok r => .sent ⟨200, .json [("status", "success")] (some r)⟩ :=
  ((C3_empty_fields_not_validated envSendOk stLive).2 _ rfl).1 "hi"

/-- C9, as stated, fails: a `Scan` on a fresh process whose `Connect` fails is
answered with 500 but leaves a client handle behind; a `Kirim` issued next calls
`SendMessage` on that never-connected client and is not answered with
`Client not initialized`. -/
theorem C9_counterexample_unconnected_client_is_used :
    (Scan envDialFails stFresh).1 = httpError "Failed to generate QR code" 500 ∧
    newCalls (Scan envDialFails stFresh).2
      (Kirim envSendFails
        (.parsed ⟨"1555000111", "hi"⟩) (Scan envDialFails stFresh).2).2 =
      [.SendMessage "1555000111@s.whatsapp.net" "hi"] ∧
    (Kirim envSendFails
        (.parsed ⟨"1555000111", "hi"⟩) (Scan envDialFails stFresh).2).1 =
      .sent ⟨200, .json [("status", "error"),
        ("message", "websocket not connected")] none⟩ := by
  decide

/-- C9, amended: for every decoded request, `Kirim` fails with 500
`Client not initialized` and makes no collaborator call exactly when there is no
client handle at all. Whenever a client handle exists, whatever happened to it
before (code issued but not scanned, failed `Connect`, logout), `SendMessage` is
called once, with the JID parsed from `mobile_no` followed by `@s.whatsapp.net` and
with the text, and its outcome is relayed with status 200: the error envelope
carrying the error text, or the success envelope carrying the provider result.
The reply is then never the no-session error. -/
theorem C9_not_initialized_iff_no_handle (kenv : KirimEnv) (data : User) (s : State) :
    (s.client = none →
      Kirim kenv (.parsed data) s = (httpError "Client not initialized" 500, s)) ∧
    (s.client ≠ none →
      newCalls s (Kirim kenv (.parsed data) s).2 =
        [.SendMessage (kenv.ParseJID (data.MobileNo ++ "@s.whatsapp.net"))
          data.TextMessage] ∧
      (Kirim kenv (.parsed data) s).2.client = s.client ∧
      (Kirim kenv (.parsed data) s).1 =
        (match kenv.SendMessage (kenv.ParseJID (data.MobileNo ++ "@s.whatsapp.net"))
            data.TextMessage with
        | .error err =>
          .sent ⟨200, .json [("status", "error"), ("message", err)] none⟩
        | .ok r => .sent ⟨200, .json [("status", "success")] (some r)⟩) ∧
      (Kirim kenv (.parsed data) s).1 ≠ httpError "Client not initialized" 500) := by
  constructor
  · intro h
    simp [Kirim, h]
  · intro h
    obtain ⟨c, hc⟩ := Option.ne_none_iff_exists'.mp h
    refine ⟨?_, ?_, ?_, ?_⟩
    · apply newCalls_append
      cases hsend : kenv.SendMessage (kenv.ParseJID (data.MobileNo ++ "@s.whatsapp.net"))
        data.TextMessage <;> simp [Kirim, State.log, hc, hsend]
    · cases hsend : kenv.SendMessage (kenv.ParseJID (data.MobileNo ++ "@s.whatsapp.net"))
        data.TextMessage <;> simp [Kirim, State.log, hc, hsend]
    · cases hsend : kenv.SendMessage (kenv.ParseJID (data.MobileNo ++ "@s.whatsapp.net"))
        data.TextMessage <;> simp [Kirim, State.log, hc, hsend]
    · cases hsend : kenv.SendMessage (kenv.ParseJID (data.MobileNo ++ "@s.whatsapp.net"))
        data.TextMessage <;> simp [Kirim, State.log, hc, hsend, httpError]

/-- C9, amended: on a fresh process (no handle); on a live session with a send
that succeeds; and on the handle left behind by a failed `Connect`, with a send
that fails. -/
theorem C9_not_initialized_iff_no_handle_witness :
    Kirim envSendOk (.parsed ⟨"1555000111", "hi"⟩) stFresh =
      (httpError "Client not initialized" 500, stFresh) ∧
    (newCalls stLive (Kirim envSendOk (.parsed ⟨"1555000111", "hi"⟩) stLive).2 =
        [.SendMessage (envSendOk.ParseJID ("1555000111" ++ "@s.whatsapp.net")) "hi"] ∧
      (Kirim envSendOk (.parsed ⟨"1555000111", "hi"⟩) stLive).2.client = stLive.client ∧
      (Kirim envSendOk (.parsed ⟨"1555000111", "hi"⟩) stLive).1 =
        (match envSendOk.SendMessage
            (envSendOk.ParseJID ("1555000111" ++ "@s.whatsapp.net")) "hi" with
        | .error err =>
          .sent ⟨200, .json [("status", "error"), ("message", err)] none⟩
        | .ok r => .sent ⟨200, .json [("status", "success")] (some r)⟩) ∧
      (Kirim envSendOk (.parsed ⟨"1555000111", "hi"⟩) stLive).1 ≠
        httpError "Client not initialized" 500) ∧
    (newCalls (Scan envDialFails stFresh).2
        (Kirim envSendFails (.parsed ⟨"1555000111", "hi"⟩)
          (Scan envDialFails stFresh).2).2 =
        [.SendMessage (envSendFails.ParseJID ("1555000111" ++ "@s.whatsapp.net")) "hi"] ∧
      (Kirim envSendFails (.parsed ⟨"1555000111", "hi"⟩)
          (Scan envDialFails stFresh).2).2.client = (Scan envDialFails stFresh).2.client ∧
      (Kirim envSendFails (.parsed ⟨"1555000111", "hi"⟩) (Scan envDialFails stFresh).2).1 =
        (match envSendFails.SendMessage
            (envSendFails.ParseJID ("1555000111" ++ "@s.whatsapp.net")) "hi" with
        | .error err =>
          .sent ⟨200, .json [("status", "error"), ("message", err)] none⟩
        | .ok r => .sent ⟨200, .json [("status", "success")] (some r)⟩) ∧
      (Kirim envSendFails (.parsed ⟨"1555000111", "hi"⟩) (Scan envDialFails stFresh).2).1 ≠
        httpError "Client not initialized" 500) :=
  ⟨(C9_not_initialized_iff_no_handle envSendOk ⟨"1555000111", "hi"⟩ stFresh).1 rfl,
   (C9_not_initialized_iff_no_handle envSendOk ⟨"1555000111", "hi"⟩ stLive).2
     (by decide),
   (C9_not_initialized_iff_no_handle envSendFails ⟨"1555000111", "hi"⟩
     (Scan envDialFails stFresh).2).2 (by decide)⟩

/-! ## Session creation (`GET /scan`) -/

/-- With a client handle present `Scan` only writes the `already logged in` reply. -/
theorem Scan_with_client (env : ScanEnv) (s : State) (h : s.client ≠ none) :
    Scan env s = (httpError "Client already logged in" 200, s) := by
  obtain ⟨c, hc⟩ := Option.ne_none_iff_exists'.mp h
  simp [Scan, hc]

/-- C7, as stated, fails: with a client handle present `Scan` answers with status
200, not 500. -/
theorem C7_counterexample_already_logged_in_is_200 :
    stLive.client ≠ none ∧
    (Scan envCodes stLive).1 = .sent ⟨200, .text "Client already logged in"⟩ ∧
    (Scan envCodes stLive).1 ≠ .sent ⟨500, .text "Client already logged in"⟩ := by
  decide

/-- C7, amended: for every state in which a client handle already exists,
`GET /scan` is answered with HTTP status 200 and the plain-text message
`Client already logged in`. -/
theorem C7_already_logged_in_reply (env : ScanEnv) (s : State)
    (h : s.client ≠ none) :
    (Scan env s).1 = .sent ⟨200, .text "Client already logged in"⟩ := by
  rw [Scan_with_client env s h]; rfl

/-- C7, amended, on a live session. -/
theorem C7_already_logged_in_reply_witness :
    (Scan envClosed stLive).1 = .sent ⟨200, .text "Client already logged in"⟩ :=
  C7_already_logged_in_reply envClosed stLive (by decide)

/-- C8: when a client handle already exists, a `Scan` request leaves the whole
state as it was: the trace gains no collaborator call (no `GetFirstDevice`,
`NewClient`, `GetQRChannel` or `Connect`) and the global client handle is the same.
Hence any sequence of further `Scan` requests leaves the state unchanged and the
number of protocol clients created does not grow. -/
theorem C8_scan_idempotent_on_existing_session (s : State) (h : s.client ≠ none) :
    (∀ env : ScanEnv, (Scan env s).2 = s ∧ newCalls s (Scan env s).2 = [] ∧
      (Scan env s).2.client = s.client) ∧
    (∀ envs : List ScanEnv, scanMany envs s = s ∧
      (scanMany envs s).created = s.created) := by
  have h1 : ∀ env : ScanEnv, (Scan env s).2 = s := fun env => by
    rw [Scan_with_client env s h]
  constructor
  · intro env
    rw [h1 env]
    exact ⟨rfl, by simp [newCalls], rfl⟩
  · intro envs
    have hm : scanMany envs s = s := by
      induction envs with
      | nil => rfl
      | cons e es ih =>
        show scanMany es (Scan e s).2 = s
        rw [h1 e]; exact ih
    rw [hm]
    exact ⟨rfl, rfl⟩

/-- C8 on the state left by a first, session-creating `Scan` of a fresh process:
two further `Scan` requests change nothing. -/
theorem C8_scan_idempotent_on_existing_session_witness :
    (∀ env : ScanEnv, (Scan env (Scan envCodes stFresh).2).2 = (Scan envCodes stFresh).2 ∧
      newCalls (Scan envCodes stFresh).2 (Scan env (Scan envCodes stFresh).2).2 = [] ∧
      (Scan env (Scan envCodes stFresh).2).2.client = (Scan envCodes stFresh).2.client) ∧
    (scanMany [envCodes, envClosed] (Scan envCodes stFresh).2 = (Scan envCodes stFresh).2 ∧
      (scanMany [envCodes, envClosed] (Scan envCodes stFresh).2).created =
        (Scan envCodes stFresh).2.created) :=
  ⟨(C8_scan_idempotent_on_existing_session (Scan envCodes stFresh).2 (by decide)).1,
   (C8_scan_idempotent_on_existing_session (Scan envCodes stFresh).2 (by decide)).2
     [envCodes, envClosed]⟩

/-- C4, as stated, fails: on a fresh process, a `Scan` whose `Connect` returns an
error (unpaired path and already-paired path alike) is answered with 500 but
leaves the newly created client in the global handle, and the next `Scan` is
answered with `Client already logged in` without any new attempt. -/
theorem C4_counterexample_connect_error_keeps_handle :
    stFresh.client = none ∧
    (Scan envDialFails stFresh).1 = httpError "Failed to generate QR code" 500 ∧
    (Scan envDialFails stFresh).2.client = some ⟨⟨none⟩, 0⟩ ∧
    (Scan envCodes (Scan envDialFails stFresh).2).1 =
      httpError "Client already logged in" 200 ∧
    newCalls (Scan envDialFails stFresh).2
      (Scan envCodes (Scan envDialFails stFresh).2).2 = [] ∧
    (Scan envDialFails ⟨none, some pairedStore, []⟩).2.client ≠ none := by
  decide

/-- C4, amended: starting with no client handle, a `Scan` that fails because the
device identity cannot be obtained (nil container, or `GetFirstDevice` error) is
answered with 500 `Failed to generate QR code` and leaves the handle absent, so
that a subsequent `Scan` is not answered with `Client already logged in` and, with
a non-nil container, queries `GetFirstDevice` again. A `Scan` that fails because
`Connect` returns an error is answered with the same 500 but leaves the client
created by `NewClient` in the global handle, and every subsequent `Scan` is
answered with `Client already logged in` and makes no new attempt. -/
theorem C4_failed_scan_handle (env : ScanEnv) (s : State) (h : s.client = none) :
    (s.container = none →
      Scan env s = (httpError "Failed to generate QR code" 500, s)) ∧
    (∀ ct err, s.container = some ct → ct.GetFirstDevice = .error err →
      (Scan env s).1 = httpError "Failed to generate QR code" 500 ∧
      (Scan env s).2.client = none ∧
      (Scan env s).2.trace = s.trace ++ [.GetFirstDevice] ∧
      ∀ env2 : ScanEnv,
        (Scan env2 (Scan env s).2).1 ≠ httpError "Client already logged in" 200 ∧
        ∃ rest, (Scan env2 (Scan env s).2).2.trace =
          (Scan env s).2.trace ++ Call.GetFirstDevice :: rest) ∧
    (∀ ct d err, s.container = some ct → ct.GetFirstDevice = .ok d →
      env.Connect = some err →
      (Scan env s).1 = httpError "Failed to generate QR code" 500 ∧
      (Scan env s).2.client = some ⟨d, s.created⟩ ∧
      ∀ env2 : ScanEnv, Scan env2 (Scan env s).2 =
        (httpError "Client already logged in" 200, (Scan env s).2)) := by
  refine ⟨?_, ?_, ?_⟩
  · intro hc
    simp [Scan, h, hc, panggilWa]
  · intro ct err hc hd
    have hs : Scan env s =
        (httpError "Failed to generate QR code" 500, s.log .GetFirstDevice) := by
      simp [Scan, h, hc, panggilWa, hd]
    rw [hs]
    refine ⟨rfl, by simp [State.log, h], by simp [State.log], ?_⟩
    intro env2
    have hcl : (s.log .GetFirstDevice).client = none := by simp [State.log, h]
    have hct : (s.log .GetFirstDevice).container = some ct := by simp [State.log, hc]
    constructor
    · simp only [Scan, hcl, hct]
      split
      · simp [httpError]
      · split
        · simp [httpError]
        · split <;> simp [httpError]
    · obtain ⟨rest, hrest⟩ := panggilWa_first_call env2 ct (s.log .GetFirstDevice)
      refine ⟨rest, ?_⟩
      simp only [Scan, hcl, hct]
      split
      · exact hrest
      · split
        · exact hrest
        · split <;> exact hrest
  · intro ct d err hc hd hconn
    have hp : (panggilWa env (some ct) s).hasil = some "" ∧
        (panggilWa env (some ct) s).state.client = some ⟨d, s.created⟩ := by
      cases hid : d.ID <;>
        simp [panggilWa, hd, hid, hconn, State.log, State.created, List.filter_append,
          Call.isNewClient]
    have hs : Scan env s =
        (httpError "Failed to generate QR code" 500, (panggilWa env (some ct) s).state) := by
      simp [Scan, h, hc, hp.1]
    rw [hs]
    refine ⟨rfl, hp.2, ?_⟩
    intro env2
    exact Scan_with_client env2 _ (by simp [hp.2])

/-- C4, amended, on a fresh process whose store query fails, and on a fresh
process whose `Connect` fails. -/
theorem C4_failed_scan_handle_witness :
    ((Scan envCodes ⟨none, some ⟨.error "pq: connection refused"⟩, []⟩).1 =
        httpError "Failed to generate QR code" 500 ∧
      (Scan envCodes ⟨none, some ⟨.error "pq: connection refused"⟩, []⟩).2.client = none ∧
      (Scan envCodes ⟨none, some ⟨.error "pq: connection refused"⟩, []⟩).2.trace =
        [] ++ [.GetFirstDevice] ∧
      ∀ env2 : ScanEnv,
        (Scan env2 (Scan envCodes ⟨none, some ⟨.error "pq: connection refused"⟩, []⟩).2).1 ≠
          httpError "Client already logged in" 200 ∧
        ∃ rest,
          (Scan env2 (Scan envCodes ⟨none, some ⟨.error "pq: connection refused"⟩, []⟩).2).2.trace =
            (Scan envCodes ⟨none, some ⟨.error "pq: connection refused"⟩, []⟩).2.trace ++
              Call.GetFirstDevice :: rest) ∧
    ((Scan envDialFails stFresh).1 = httpError "Failed to generate QR code" 500 ∧
      (Scan envDialFails stFresh).2.client = some ⟨⟨none⟩, stFresh.created⟩ ∧
      ∀ env2 : ScanEnv, Scan env2 (Scan envDialFails stFresh).2 =
        (httpError "Client already logged in" 200, (Scan envDialFails stFresh).2)) :=
  ⟨(C4_failed_scan_handle envCodes ⟨none, some ⟨.error "pq: connection refused"⟩, []⟩
      rfl).2.1 _ "pq: connection refused" rfl rfl,
   (C4_failed_scan_handle envDialFails stFresh rfl).2.2 _ ⟨none⟩
      "websocket dial failed" rfl rfl rfl⟩

/-! ## Pairing flow (the QR channel) -/

/-- C5: for an unpaired device whose `Connect` succeeds and a finite QR stream
that contains a `code` item, the stream splits as `pre ++ e :: post` with no code
in `pre` and `e` the first code; the items of `pre` are skipped, and when
`qrcode.Encode` of `e.Code` succeeds with bytes `png`, `panggilWa` returns exactly
`data:image/png;base64,` followed by the standard base64 text of `png`, leaves
`post` unread in the channel, and has called, in order, `GetFirstDevice`,
`NewClient`, `AddEventHandler`, `GetQRChannel`, `Connect` and `Encode` and nothing
else: `Disconnect` is not called, and the new client stays in the global handle. -/
theorem C5_first_code_is_returned (env : ScanEnv) (ct : Container) (s : State)
    (d : Device) (evts : List QRChannelItem)
    (hdev : ct.GetFirstDevice = .ok d) (hunpaired : d.ID = none)
    (hconn : env.Connect = none) (hchan : env.qrChan = some evts)
    (hcode : ∃ e ∈ evts, e.Event = "code") :
    ∃ pre e post, evts = pre ++ e :: post ∧ (∀ x ∈ pre, x.Event ≠ "code") ∧
      e.Event = "code" ∧
      ∀ png, env.Encode e.Code = .ok png →
        (panggilWa env (some ct) s).hasil =
          some ("data:image/png;base64," ++ EncodeToString png) ∧
        (panggilWa env (some ct) s).unread = post ∧
        (panggilWa env (some ct) s).state.trace =
          s.trace ++ [.GetFirstDevice, .NewClient d, .AddEventHandler, .GetQRChannel,
            .Connect, .Encode e.Code] ∧
        Call.Disconnect ∉ newCalls s (panggilWa env (some ct) s).state ∧
        (panggilWa env (some ct) s).state.client = some ⟨d, s.created⟩ := by
  obtain ⟨pre, e, post, hsplit, hpre, he⟩ := first_code_split evts hcode
  refine ⟨pre, e, post, hsplit, hpre, he, ?_⟩
  intro png hpng
  have hp : panggilWa env (some ct) s =
      ⟨some ("data:image/png;base64," ++ EncodeToString png), post,
        { client := some ⟨d, s.created⟩, container := s.container,
          trace := s.trace ++ [.GetFirstDevice, .NewClient d, .AddEventHandler,
            .GetQRChannel, .Connect, .Encode e.Code] }⟩ := by
    simp only [panggilWa, hdev, hunpaired, hconn, hchan, hsplit]
    rw [rangeQrChan_skip env.Encode pre (e :: post) _ hpre]
    simp [rangeQrChan, he, hpng, State.log, State.created, List.filter_append,
      Call.isNewClient]
  rw [hp]
  refine ⟨rfl, rfl, rfl, ?_, rfl⟩
  rw [newCalls_append s _ _ rfl]
  simp

/-- C5 on a fresh process whose QR stream delivers a lifecycle item, then the code
`2@abc`, then a second code: the data URI of the bytes rendered for `2@abc` is
returned and the second code stays unread. -/
theorem C5_first_code_is_returned_witness :
    ∃ pre e post,
      [(⟨"err-client-outdated", ""⟩ : QRChannelItem), ⟨"code", "2@abc"⟩,
        ⟨"code", "2@def"⟩] = pre ++ e :: post ∧
      (∀ x ∈ pre, x.Event ≠ "code") ∧ e.Event = "code" ∧
      ∀ png, envCodes.Encode e.Code = .ok png →
        (panggilWa envCodes (some unpairedStore) stFresh).hasil =
          some ("data:image/png;base64," ++ EncodeToString png) ∧
        (panggilWa envCodes (some unpairedStore) stFresh).unread = post ∧
        (panggilWa envCodes (some unpairedStore) stFresh).state.trace =
          stFresh.trace ++ [.GetFirstDevice, .NewClient ⟨none⟩, .AddEventHandler,
            .GetQRChannel, .Connect, .Encode e.Code] ∧
        Call.Disconnect ∉
          newCalls stFresh (panggilWa envCodes (some unpairedStore) stFresh).state ∧
        (panggilWa envCodes (some unpairedStore) stFresh).state.client =
          some ⟨⟨none⟩, stFresh.created⟩ :=
  C5_first_code_is_returned envCodes unpairedStore stFresh ⟨none⟩ _ rfl rfl rfl rfl
    ⟨⟨"code", "2@abc"⟩, by decide, rfl⟩

/-- C6, as stated, fails: on a fresh process with an unpaired device and a
successful `Connect`, a QR stream that delivers two lifecycle items and is then
closed (and likewise the stream closed at once) does not make `panggilWa` return
the empty string; once a termination signal is delivered it calls `Disconnect` and
returns "0", and `Scan` renders the page with that value instead of answering 500.
Without a signal `panggilWa` does not return at all and `Scan` sends nothing. -/
theorem C6_counterexample_closed_stream_returns_zero :
    (∀ e ∈ [(⟨"err-client-outdated", ""⟩ : QRChannelItem), ⟨"timeout", ""⟩],
      e.Event ≠ "code") ∧
    (panggilWa envNoCode (some unpairedStore) stFresh).hasil = some "0" ∧
    (panggilWa envNoCode (some unpairedStore) stFresh).hasil ≠ some "" ∧
    (Scan envNoCode stFresh).1 = .sent ⟨200, .html "0"⟩ ∧
    (Scan envNoCode stFresh).1 ≠ httpError "Failed to generate QR code" 500 ∧
    (panggilWa envNoCodeNoSignal (some unpairedStore) stFresh).hasil = none ∧
    (Scan envNoCodeNoSignal stFresh).1 = .hang ∧
    (panggilWa envClosed (some unpairedStore) stFresh).hasil = some "0" ∧
    (Scan envClosed stFresh).1 = .sent ⟨200, .html "0"⟩ := by
  decide

/-- C6, amended: for an unpaired device whose `Connect` succeeds and a finite QR
stream that closes without any `code` item (the empty stream included),
`panggilWa` leaves the loop and waits for a termination signal. While no signal is
delivered it does not return and `Scan` sends no reply. When a signal is delivered
it calls `Disconnect` and returns "0", never the empty string, and `Scan` goes on
to the template with that value instead of answering 500
`Failed to generate QR code`: the page with status 200 when the template executes,
no reply when parsing panics, 500 `Unable to render template` when `Execute` fails
before any output, and status 200 with the partial page followed by that message
when `Execute` fails after output was written. In every case the whole stream has
been received. -/
theorem C6_closed_stream_waits_for_signal (env : ScanEnv) (ct : Container)
    (s : State) (d : Device) (evts : List QRChannelItem)
    (hclient : s.client = none) (hct : s.container = some ct)
    (hdev : ct.GetFirstDevice = .ok d) (hunpaired : d.ID = none)
    (hconn : env.Connect = none) (hchan : env.qrChan = some evts)
    (hnocode : ∀ e ∈ evts, e.Event ≠ "code") :
    (panggilWa env (some ct) s).hasil ≠ some "" ∧
    (panggilWa env (some ct) s).unread = [] ∧
    (Scan env s).1 ≠ httpError "Failed to generate QR code" 500 ∧
    (env.signal = false →
      (panggilWa env (some ct) s).hasil = none ∧ (Scan env s).1 = .hang) ∧
    (env.signal = true →
      (panggilWa env (some ct) s).hasil = some "0" ∧
      (panggilWa env (some ct) s).state.trace =
        s.trace ++ [.GetFirstDevice, .NewClient d, .AddEventHandler, .GetQRChannel,
          .Connect, .Disconnect] ∧
      (Scan env s).1 =
        match env.tmpl with
        | .parsePanic => .abort
        | .executeErr => httpError "Unable to render template" 500
        | .executeErrAfterOutput =>
          .sent ⟨200, .htmlThenText "0" "Unable to render template"⟩
        | .executed => .sent ⟨200, .html "0"⟩) := by
  have hp : panggilWa env (some ct) s =
      awaitSignal env.signal []
        { client := some ⟨d, s.created⟩, container := s.container,
          trace := s.trace ++ [.GetFirstDevice, .NewClient d, .AddEventHandler,
            .GetQRChannel, .Connect] } := by
    simp only [panggilWa, hdev, hunpaired, hconn, hchan]
    rw [rangeQrChan_no_code env.Encode evts _ hnocode]
    simp [State.log, State.created, List.filter_append, Call.isNewClient]
  cases hs : env.signal with
  | false =>
    have hh : (panggilWa env (some ct) s).hasil = none := by
      rw [hp]; simp [awaitSignal, hs]
    have hscan : (Scan env s).1 = .hang := by
      simp [Scan, hclient, hct, hh]
    refine ⟨by simp [hh], by rw [hp]; simp [awaitSignal, hs],
      by simp [hscan, httpError], fun _ => ⟨hh, hscan⟩, ?_⟩
    intro h; cases h
  | true =>
    have hh : (panggilWa env (some ct) s).hasil = some "0" := by
      rw [hp]; simp [awaitSignal, hs]
    have hscan : (Scan env s).1 =
        match env.tmpl with
        | .parsePanic => .abort
        | .executeErr => httpError "Unable to render template" 500
        | .executeErrAfterOutput =>
          .sent ⟨200, .htmlThenText "0" "Unable to render template"⟩
        | .executed => .sent ⟨200, .html "0"⟩ := by
      cases ht : env.tmpl <;> simp [Scan, hclient, hct, hh, ht]
    refine ⟨by simp [hh], by rw [hp]; simp [awaitSignal, hs], ?_, ?_,
      fun _ => ⟨hh, ?_, hscan⟩⟩
    · rw [hscan]
      cases env.tmpl <;> simp [httpError]
    · intro h; cases h
    · rw [hp]; simp [awaitSignal, hs, State.log]

/-- C6, amended, on a fresh process whose QR stream delivers two lifecycle items
and is then closed: once with a termination signal, once without. -/
theorem C6_closed_stream_waits_for_signal_witness :
    ((panggilWa envNoCode (some unpairedStore) stFresh).hasil = some "0" ∧
      (panggilWa envNoCode (some unpairedStore) stFresh).state.trace =
        stFresh.trace ++ [.GetFirstDevice, .NewClient ⟨none⟩, .AddEventHandler,
          .GetQRChannel, .Connect, .Disconnect] ∧
      (Scan envNoCode stFresh).1 =
        match envNoCode.tmpl with
        | .parsePanic => .abort
        | .executeErr => httpError "Unable to render template" 500
        | .executeErrAfterOutput =>
          .sent ⟨200, .htmlThenText "0" "Unable to render template"⟩
        | .executed => .sent ⟨200, .html "0"⟩) ∧
    ((panggilWa envNoCodeNoSignal (some unpairedStore) stFresh).hasil = none ∧
      (Scan envNoCodeNoSignal stFresh).1 = .hang) :=
  ⟨(C6_closed_stream_waits_for_signal envNoCode unpairedStore stFresh ⟨none⟩
      [⟨"err-client-outdated", ""⟩, ⟨"timeout", ""⟩]
      rfl rfl rfl rfl rfl rfl (by decide)).2.2.2.2 rfl,
   (C6_closed_stream_waits_for_signal envNoCodeNoSignal unpairedStore stFresh ⟨none⟩
      [⟨"err-client-outdated", ""⟩, ⟨"timeout", ""⟩]
      rfl rfl rfl rfl rfl rfl (by decide)).2.2.2.1 rfl⟩

/-! ## Concurrent `GET /scan` requests -/

/-- `Scan` is the test of line 107 followed by the rest of the handler. -/
theorem Scan_eq_check_act (env : ScanEnv) (s : State) :
    Scan env s = scanAct env (scanCheck s) s := by
  cases hc : s.client <;> simp [Scan, scanAct, scanCheck, hc]

/-- The loop creates no client, makes no `Connect` and leaves the globals alone. -/
theorem rangeQrChan_counts (E : String → Except String (List UInt8))
    (evts : List QRChannelItem) (s : State) :
    (rangeQrChan E evts s).2.2.created = s.created ∧
    (rangeQrChan E evts s).2.2.connects = s.connects ∧
    (rangeQrChan E evts s).2.2.client = s.client ∧
    (rangeQrChan E evts s).2.2.container = s.container := by
  induction evts with
  | nil => simp [rangeQrChan]
  | cons x xs ih =>
    by_cases hx : x.Event = "code"
    · cases hE : E x.Code <;>
        simp [rangeQrChan, hx, hE, State.log, State.created, State.connects,
          List.filter_append, Call.isNewClient, Call.isConnect]
    · simpa [rangeQrChan, hx] using ih

/-- Once the store hands out a device, `panggilWa` creates one client, assigns it
to the global handle and makes one `Connect` attempt, on every path. -/
theorem panggilWa_creates (env : ScanEnv) (ct : Container) (d : Device) (s : State)
    (hdev : ct.GetFirstDevice = .ok d) :
    (panggilWa env (some ct) s).state.created = s.created + 1 ∧
    (panggilWa env (some ct) s).state.connects = s.connects + 1 ∧
    (panggilWa env (some ct) s).state.client = some ⟨d, s.created⟩ ∧
    (panggilWa env (some ct) s).state.container = s.container := by
  cases hid : d.ID with
  | some j =>
    cases hc : env.Connect with
    | some e =>
      simp [panggilWa, hdev, hid, hc, State.log, State.created, State.connects,
        List.filter_append, Call.isNewClient, Call.isConnect]
    | none =>
      cases hs : env.signal <;>
        simp [panggilWa, hdev, hid, hc, hs, awaitSignal, State.log, State.created,
          State.connects, List.filter_append, Call.isNewClient, Call.isConnect]
  | none =>
    cases hc : env.Connect with
    | some e =>
      simp [panggilWa, hdev, hid, hc, State.log, State.created, State.connects,
        List.filter_append, Call.isNewClient, Call.isConnect]
    | none =>
      cases hq : env.qrChan with
      | none =>
        simp [panggilWa, hdev, hid, hc, hq, State.log, State.created, State.connects,
          List.filter_append, Call.isNewClient, Call.isConnect]
      | some evts =>
        simp only [panggilWa, hdev, hid, hc, hq]
        generalize hs3 : (State.log (State.log _ .GetQRChannel) .Connect) = s3
        have h3 : s3.created = s.created + 1 ∧ s3.connects = s.connects + 1 ∧
            s3.client = some ⟨d, s.created⟩ ∧ s3.container = s.container := by
          subst hs3
          simp [State.log, State.created, State.connects, List.filter_append,
            Call.isNewClient, Call.isConnect]
        have hr := rangeQrChan_counts env.Encode evts s3
        rcases hrs : rangeQrChan env.Encode evts s3 with ⟨v, rest, s4⟩
        rw [hrs] at hr
        simp only at hr
        obtain ⟨hr1, hr2, hr3, hr4⟩ := hr
        cases v with
        | some v =>
          simp only
          exact ⟨by rw [hr1, h3.1], by rw [hr2, h3.2.1], by rw [hr3, h3.2.2.1],
            by rw [hr4, h3.2.2.2]⟩
        | none =>
          cases hs : env.signal
          · simp only [awaitSignal]
            exact ⟨by simp [hr1, h3.1], by simp [hr2, h3.2.1], by simp [hr3, h3.2.2.1],
              by simp [hr4, h3.2.2.2]⟩
          · simp only [awaitSignal]
            refine ⟨?_, ?_, ?_, ?_⟩
            · have : (s4.log .Disconnect).created = s4.created := by
                simp [State.log, State.created, List.filter_append, Call.isNewClient]
              simp [this, hr1, h3.1]
            · have : (s4.log .Disconnect).connects = s4.connects := by
                simp [State.log, State.connects, List.filter_append, Call.isConnect]
              simp [this, hr2, h3.2.1]
            · simp [State.log, hr3, h3.2.2.1]
            · simp [State.log, hr4, h3.2.2.2]

/-- After a test that saw no handle, the state left by the handler is the one left
by `panggilWa`. -/
theorem scanAct_true_state (env : ScanEnv) (s : State) :
    (scanAct env true s).2 = (panggilWa env s.container s).state := by
  simp only [scanAct, if_true]
  split
  · rfl
  · split
    · rfl
    · split <;> rfl

/-- After a test that saw no handle, the reply is never `Client already logged in`. -/
theorem scanAct_true_reply (env : ScanEnv) (s : State) :
    (scanAct env true s).1 ≠ httpError "Client already logged in" 200 := by
  simp only [scanAct, if_true]
  split
  · simp [httpError]
  · split
    · simp [httpError]
    · split <;> simp [httpError]

/-- Further `Scan` requests on a state with a handle change nothing. -/
theorem scanMany_with_client (envs : List ScanEnv) (s : State) (h : s.client ≠ none) :
    scanMany envs s = s := by
  induction envs with
  | nil => rfl
  | cons e es ih =>
    show scanMany es (Scan e s).2 = s
    rw [Scan_with_client e s h]; exact ih

/-- C10, as stated, fails: on a fresh process two `/scan` requests that both pass
the test of line 107 before either reaches the assignment of line 51 (schedule:
test of request 0, test of request 1, rest of request 0, rest of request 1) create
two protocol clients and make two `Connect` attempts; each caller is handed the
pairing page of its own client and the global handle ends as the second client. -/
theorem C10_counterexample_two_clients_created :
    stFresh.client = none ∧
    (runSchedule [envCodes, envCodes] [0, 1, 0, 1] (Config.init stFresh 2)).state.created
      = 2 ∧
    (runSchedule [envCodes, envCodes] [0, 1, 0, 1] (Config.init stFresh 2)).state.connects
      = 2 ∧
    newCalls stFresh
      (runSchedule [envCodes, envCodes] [0, 1, 0, 1] (Config.init stFresh 2)).state =
      [.GetFirstDevice, .NewClient ⟨none⟩, .AddEventHandler, .GetQRChannel, .Connect,
        .Encode "2@abc",
       .GetFirstDevice, .NewClient ⟨none⟩, .AddEventHandler, .GetQRChannel, .Connect,
        .Encode "2@abc"] ∧
    (runSchedule [envCodes, envCodes] [0, 1, 0, 1] (Config.init stFresh 2)).pcs =
      [.finished (.sent ⟨200, .html "data:image/png;base64,iVBO"⟩),
       .finished (.sent ⟨200, .html "data:image/png;base64,iVBO"⟩)] ∧
    (runSchedule [envCodes, envCodes] [0, 1, 0, 1] (Config.init stFresh 2)).state.client =
      some ⟨⟨none⟩, 1⟩ := by
  decide

/-- C10, amended: while no session exists and the store hands out a device,
`/scan` requests that run one after the other (any number of them) create exactly
one protocol client and make exactly one `Connect` attempt: the first request does
both, the handle stays that client, and every later request is answered
`Client already logged in`. The test of line 107 and the assignment of line 51 are
not one atomic check-and-set: two requests run without overlap behave as the
sequential ones, but when both pass the test before either runs on, each creates
its own client and makes its own `Connect` attempt (two of each), the first gets
the reply it would get alone, the second gets the reply of a handler that saw no
handle, neither is answered `Client already logged in`, and the handle ends as the
client created second. -/
theorem C10_single_client_only_without_overlap (s : State) (ct : Container)
    (d : Device) (hclient : s.client = none) (hct : s.container = some ct)
    (hdev : ct.GetFirstDevice = .ok d) :
    (∀ (env : ScanEnv) (envs : List ScanEnv),
      (scanMany (env :: envs) s).created = s.created + 1 ∧
      (scanMany (env :: envs) s).connects = s.connects + 1 ∧
      (scanMany (env :: envs) s).client = some ⟨d, s.created⟩ ∧
      scanMany (env :: envs) s = (Scan env s).2 ∧
      ∀ env2 : ScanEnv, (Scan env2 (scanMany (env :: envs) s)).1 =
        httpError "Client already logged in" 200) ∧
    (∀ e1 e2 : ScanEnv,
      (runSchedule [e1, e2] [0, 0, 1, 1] (Config.init s 2)).state = scanMany [e1, e2] s ∧
      (runSchedule [e1, e2] [0, 0, 1, 1] (Config.init s 2)).pcs =
        [.finished (Scan e1 s).1, .finished (httpError "Client already logged in" 200)]) ∧
    (∀ e1 e2 : ScanEnv,
      (runSchedule [e1, e2] [0, 1, 0, 1] (Config.init s 2)).state.created =
        s.created + 2 ∧
      (runSchedule [e1, e2] [0, 1, 0, 1] (Config.init s 2)).state.connects =
        s.connects + 2 ∧
      (runSchedule [e1, e2] [0, 1, 0, 1] (Config.init s 2)).state.client =
        some ⟨d, s.created + 1⟩ ∧
      (runSchedule [e1, e2] [0, 1, 0, 1] (Config.init s 2)).pcs =
        [.finished (Scan e1 s).1, .finished (scanAct e2 true (Scan e1 s).2).1] ∧
      (Scan e1 s).1 ≠ httpError "Client already logged in" 200 ∧
      (scanAct e2 true (Scan e1 s).2).1 ≠ httpError "Client already logged in" 200) := by
  have hcheck : scanCheck s = true := by simp [scanCheck, hclient]
  have hscan : ∀ env : ScanEnv, (Scan env s).2 = (panggilWa env (some ct) s).state := by
    intro env
    rw [Scan_eq_check_act, hcheck, scanAct_true_state, hct]
  refine ⟨?_, ?_, ?_⟩
  · intro env envs
    obtain ⟨h1, h2, h3, _⟩ := panggilWa_creates env ct d s hdev
    have hne : (Scan env s).2.client ≠ none := by rw [hscan env, h3]; simp
    have hm : scanMany (env :: envs) s = (Scan env s).2 := by
      show scanMany envs (Scan env s).2 = (Scan env s).2
      exact scanMany_with_client envs _ hne
    rw [hm]
    refine ⟨by rw [hscan env, h1], by rw [hscan env, h2], by rw [hscan env, h3], rfl, ?_⟩
    intro env2
    rw [Scan_with_client env2 _ hne]
  · intro e1 e2
    obtain ⟨_, _, h3, _⟩ := panggilWa_creates e1 ct d s hdev
    have hne : (Scan e1 s).2.client ≠ none := by rw [hscan e1, h3]; simp
    have hact : scanAct e1 true s = Scan e1 s := by rw [Scan_eq_check_act, hcheck]
    have hcheck2 : scanCheck (Scan e1 s).2 = false := by
      rw [hscan e1]; simp [scanCheck, h3]
    have hm : scanMany [e1, e2] s = (Scan e1 s).2 := by
      show scanMany [e2] (Scan e1 s).2 = (Scan e1 s).2
      exact scanMany_with_client [e2] _ hne
    have hrun : runSchedule [e1, e2] [0, 0, 1, 1] (Config.init s 2) =
        ⟨(scanAct e2 (scanCheck (scanAct e1 true s).2) (scanAct e1 true s).2).2,
          [.finished (scanAct e1 true s).1,
           .finished (scanAct e2 (scanCheck (scanAct e1 true s).2)
             (scanAct e1 true s).2).1]⟩ := by
      simp [runSchedule, stepRequest, Config.init, List.replicate, hcheck]
    have hfalse : ∀ t : State, scanAct e2 false t =
        (httpError "Client already logged in" 200, t) := by
      intro t; simp [scanAct]
    rw [hm, hrun, hact, hcheck2, hfalse]
    exact ⟨rfl, rfl⟩
  · intro e1 e2
    have hrun : runSchedule [e1, e2] [0, 1, 0, 1] (Config.init s 2) =
        ⟨(scanAct e2 true (scanAct e1 true s).2).2,
          [.finished (scanAct e1 true s).1,
           .finished (scanAct e2 true (scanAct e1 true s).2).1]⟩ := by
      simp [runSchedule, stepRequest, Config.init, List.replicate, hcheck]
    have hact : Scan e1 s = scanAct e1 true s := by rw [Scan_eq_check_act, hcheck]
    rw [hrun, hact]
    obtain ⟨h1, h2, _, h4⟩ := panggilWa_creates e1 ct d s hdev
    have hs1 : (scanAct e1 true s).2 = (panggilWa e1 (some ct) s).state := by
      rw [scanAct_true_state, hct]
    have hct1 : (scanAct e1 true s).2.container = some ct := by rw [hs1, h4, hct]
    obtain ⟨k1, k2, k3, _⟩ := panggilWa_creates e2 ct d (scanAct e1 true s).2 hdev
    have hs2 : (scanAct e2 true (scanAct e1 true s).2).2 =
        (panggilWa e2 (some ct) (scanAct e1 true s).2).state := by
      rw [scanAct_true_state, hct1]
    simp only
    rw [hs2]
    exact ⟨by rw [k1, hs1, h1], by rw [k2, hs1, h2], by rw [k3, hs1, h1], trivial,
      scanAct_true_reply e1 s, scanAct_true_reply e2 _⟩

/-- C10, amended, on a fresh process: three requests one after the other, two
requests run without overlap, and two requests that pass the test together. -/
theorem C10_single_client_only_without_overlap_witness :
    ((scanMany [envCodes, envClosed, envCodes] stFresh).created = stFresh.created + 1 ∧
      (scanMany [envCodes, envClosed, envCodes] stFresh).connects =
        stFresh.connects + 1 ∧
      (scanMany [envCodes, envClosed, envCodes] stFresh).client =
        some ⟨⟨none⟩, stFresh.created⟩ ∧
      scanMany [envCodes, envClosed, envCodes] stFresh = (Scan envCodes stFresh).2 ∧
      ∀ env2 : ScanEnv,
        (Scan env2 (scanMany [envCodes, envClosed, envCodes] stFresh)).1 =
          httpError "Client already logged in" 200) ∧
    ((runSchedule [envCodes, envClosed] [0, 0, 1, 1] (Config.init stFresh 2)).state =
        scanMany [envCodes, envClosed] stFresh ∧
      (runSchedule [envCodes, envClosed] [0, 0, 1, 1] (Config.init stFresh 2)).pcs =
        [.finished (Scan envCodes stFresh).1,
         .finished (httpError "Client already logged in" 200)]) ∧
    ((runSchedule [envCodes, envClosed] [0, 1, 0, 1] (Config.init stFresh 2)).state.created =
        stFresh.created + 2 ∧
      (runSchedule [envCodes, envClosed] [0, 1, 0, 1] (Config.init stFresh 2)).state.connects =
        stFresh.connects + 2 ∧
      (runSchedule [envCodes, envClosed] [0, 1, 0, 1] (Config.init stFresh 2)).state.client =
        some ⟨⟨none⟩, stFresh.created + 1⟩ ∧
      (runSchedule [envCodes, envClosed] [0, 1, 0, 1] (Config.init stFresh 2)).pcs =
        [.finished (Scan envCodes stFresh).1,
         .finished (scanAct envClosed true (Scan envCodes stFresh).2).1] ∧
      (Scan envCodes stFresh).1 ≠ httpError "Client already logged in" 200 ∧
      (scanAct envClosed true (Scan envCodes stFresh).2).1 ≠
        httpError "Client already logged in" 200) :=
  ⟨(C10_single_client_only_without_overlap stFresh unpairedStore ⟨none⟩ rfl rfl rfl).1
      envCodes [envClosed, envCodes],
   (C10_single_client_only_without_overlap stFresh unpairedStore ⟨none⟩ rfl rfl rfl).2.1
      envCodes envClosed,
   (C10_single_client_only_without_overlap stFresh unpairedStore ⟨none⟩ rfl rfl rfl).2.2
      envCodes envClosed⟩

end WaSender
